import Mathlib

/-!
Shallow embedding of the resilient WebSocket connection manager of the
trading dashboard frontend, together with its HTTP liveness prober.

Sources embedded:
  - the WebSocketConnection component bundled in src/src/App.js
    (sendHeartbeat, checkConnection, connectWebSocket, onopen, onmessage,
    onclose handlers) - referred to below as the App variant;
  - the older WebSocketConnection in src/unnamed/part_001 - referred to
    below as the Part001 variant (it differs in the heartbeat-timeout
    close code and in message dispatch);
  - the useBotStatus hook in src/unnamed/part_000 (checkStatus).

React useState and useRef cells become explicit state passing; each event
handler is a function from the manager state (plus event data) to a new
state together with the externally visible actions it performs.
-/

/-! ## WebSocket readyState constants (WebSocketState object in the source) -/

def WebSocketState.CONNECTING : Nat := 0
def WebSocketState.OPEN : Nat := 1
def WebSocketState.CLOSING : Nat := 2
def WebSocketState.CLOSED : Nat := 3

/-- Close code used by connectWebSocket when it supersedes a live handle:
close(4000, "New connection attempt") in both variants. -/
def SUPERSEDED_CODE : Nat := 4000

/-- Close code used by checkConnection in the App variant on pong timeout:
const PONG_TIMEOUT_CODE = 4000. -/
def PONG_TIMEOUT_CODE : Nat := 4000

/-- Close code used by checkConnection in the Part001 variant on pong
timeout: close(1006, "Pong timeout"). -/
def PART001_TIMEOUT_CODE : Nat := 1006

/-! ## Transport handle -/

/-- A WebSocket handle: identity plus transport readyState (a Nat, as the
source compares against the numeric WebSocketState constants). -/
structure Handle where
  id : Nat
  readyState : Nat
  deriving DecidableEq, Repr

/-- Transport semantics of calling close() on a handle: an OPEN or
CONNECTING handle moves to CLOSING; on any other handle the call is a
no-op. -/
def Handle.closeCall (h : Handle) : Handle :=
  if h.readyState == WebSocketState.OPEN || h.readyState == WebSocketState.CONNECTING then
    { h with readyState := WebSocketState.CLOSING }
  else h

/-! ## JS values carried by inbound messages -/

/-- The subset of JS values the message handlers inspect: a parsed JSON
object with a type tag (payload abstracts the remaining fields, which the
handlers only ever hand to toast calls), or a plain string. Reading .type
on a string yields undefined in JS, modelled by msgType returning none. -/
inductive JsValue where
  | obj (type : String) (payload : String)
  | str (s : String)
  deriving DecidableEq, Repr

/-- message.type: the tag of an object, undefined (none) for a string. -/
def msgType : JsValue → Option String
  | .obj t _ => some t
  | .str _ => none

/-- JS truthiness of the values above: objects are truthy, a string is
truthy when nonempty. -/
def jsTruthy : JsValue → Bool
  | .obj _ _ => true
  | .str s => !(s == "")

/-- An inbound transport event: either event.data parsed as JSON, or a
payload on which JSON.parse throws (kept as the raw text). -/
inductive InboundEvent where
  | parsed (v : JsValue)
  | unparseable (raw : String)
  deriving DecidableEq, Repr

/-! ## Message history -/

/-- setMessages(prev => [message, ...prev].slice(0, 100)): prepend the new
message and keep at most the first 100 entries. Used verbatim at every
insertion site in both variants. -/
def pushMessage (m : JsValue) (prev : List JsValue) : List JsValue :=
  (m :: prev).take 100

/-! ## Manager state -/

/-- The mutable cells of the WebSocketConnection component:
socketRef, reconnectTimeoutRef (some pending delay in ms when a reconnect
timeout is scheduled), heartbeatIntervalRef (true when the interval is
active), reconnectAttempts, lastPongRef, isConnected. -/
structure ManagerState where
  socket : Option Handle
  reconnectTimer : Option Nat
  heartbeatTimer : Bool
  reconnectAttempts : Nat
  lastPongAt : Nat
  isConnected : Bool
  deriving DecidableEq, Repr

/-- socket && socket.readyState === WebSocketState.OPEN -/
def socketIsOpen (st : ManagerState) : Bool :=
  match st.socket with
  | some h => h.readyState == WebSocketState.OPEN
  | none => false

/-! ## Heartbeat send (sendHeartbeat, identical in both variants) -/

/-- Whether the synchronous socket.send call succeeds or throws. -/
inductive SendOutcome where
  | ok
  | throws
  deriving DecidableEq, Repr

/-- Result of a sendHeartbeat call: the state afterwards, whether
socket.send was invoked, and any close call issued (never). -/
structure SendResult where
  state : ManagerState
  pingSent : Bool
  closeIssued : Option Nat
  deriving DecidableEq, Repr

/-- sendHeartbeat: sends the ping JSON only when the current socket exists
and its readyState is OPEN; a throwing send is caught and merely logged,
so the state is returned unchanged in every case and no close is ever
issued here. -/
def sendHeartbeat (outcome : SendOutcome) (st : ManagerState) : SendResult :=
  match st.socket with
  | some socket =>
    if socket.readyState == WebSocketState.OPEN then
      match outcome with
      | .ok => { state := st, pingSent := true, closeIssued := none }
      | .throws => { state := st, pingSent := true, closeIssued := none }
    else { state := st, pingSent := false, closeIssued := none }
  | none => { state := st, pingSent := false, closeIssued := none }

/-! ## Heartbeat liveness check (checkConnection) -/

/-- Result of a checkConnection call: the state afterwards and the close
code passed to socket.close, when a close was issued. -/
structure CheckResult where
  state : ManagerState
  closeIssued : Option Nat
  deriving DecidableEq, Repr

/-- checkConnection: if now - lastPongRef.current > 30000 and a socket
reference exists, call close(timeoutCode) on it (the App variant passes
PONG_TIMEOUT_CODE = 4000, the Part001 variant passes 1006). The handler
does not guard on readyState; the transport makes close a no-op on an
already closing or closed handle (Handle.closeCall). -/
def checkConnection (timeoutCode : Nat) (now : Nat) (st : ManagerState) : CheckResult :=
  if 30000 < now - st.lastPongAt then
    match st.socket with
    | some h =>
        { state := { st with socket := some (Handle.closeCall h) }
          closeIssued := some timeoutCode }
    | none => { state := st, closeIssued := none }
  else { state := st, closeIssued := none }

/-- The App variant of checkConnection. -/
def checkConnectionApp : Nat → ManagerState → CheckResult :=
  checkConnection PONG_TIMEOUT_CODE

/-- The Part001 variant of checkConnection. -/
def checkConnectionPart001 : Nat → ManagerState → CheckResult :=
  checkConnection PART001_TIMEOUT_CODE

/-! ## Close handler (onclose, same retry condition in both variants) -/

/-- The retry guard of the onclose handlers:
event.code !== 1000 && event.code !== 1005 && event.code !== 4000. -/
def shouldReconnect (code : Nat) : Bool :=
  code != 1000 && code != 1005 && code != 4000

/-- Backoff delay: Math.min(1000 * Math.pow(2, reconnectAttempts), 30000). -/
def reconnectDelay (attempts : Nat) : Nat :=
  min (1000 * 2 ^ attempts) 30000

/-- The onclose handler of a socket created by a connectWebSocket closure
that captured the counter value captured for reconnectAttempts (a JS
closure reads the binding of the render that created it, not the live
useState value): it clears the connected flag and the heartbeat interval,
and, when the close code passes the retry guard, schedules a reconnect
timeout with the backoff delay computed from the captured counter value.
The handler never touches socketRef or the counter itself (the counter is
incremented only when the scheduled timeout fires). -/
def oncloseCaptured (captured : Nat) (code : Nat) (st : ManagerState) : ManagerState :=
  let st1 := { st with isConnected := false, heartbeatTimer := false }
  if shouldReconnect code then
    { st1 with reconnectTimer := some (reconnectDelay captured) }
  else st1

/-- onclose in the case where the captured counter value coincides with
the live one (a socket created by a closure of a render with fresh
state, before any timer-driven re-entry). The retry guard reads only the
close code, never the counter, so for the question of whether a
reconnect is scheduled this case is fully general; only the delay value
depends on the capture. -/
def onclose (code : Nat) (st : ManagerState) : ManagerState :=
  oncloseCaptured st.reconnectAttempts code st

/-- Folding a sequence of close events through onclose. -/
def runCloses (codes : List Nat) (st : ManagerState) : ManagerState :=
  codes.foldl (fun s c => onclose c s) st

/-! ## Open handler (onopen, identical in both variants) -/

/-- onopen: setIsConnected(true); setReconnectAttempts(0);
lastPongRef.current = Date.now(); start the 10 s heartbeat interval. -/
def onopen (now : Nat) (st : ManagerState) : ManagerState :=
  { st with isConnected := true
            reconnectAttempts := 0
            lastPongAt := now
            heartbeatTimer := true }

/-! ## Connection establishment (connectWebSocket, identical cleanup
logic in both variants) -/

/-- Externally visible actions performed by connectWebSocket, in order. -/
inductive ConnAction where
  | clearReconnectTimer
  | clearHeartbeat
  | closeHandle (id : Nat) (code : Nat)
  | createHandle (id : Nat)
  deriving DecidableEq, Repr

/-- The initial cleanup block of connectWebSocket: clearTimeout on a
pending reconnect timeout and clearInterval on an active heartbeat
interval, each guarded on the ref being non-null. -/
def clearActs (st : ManagerState) : List ConnAction :=
  (if st.reconnectTimer.isSome then [ConnAction.clearReconnectTimer] else []) ++
  (if st.heartbeatTimer then [ConnAction.clearHeartbeat] else [])

/-- connectWebSocket (successful-construction path): cancel any pending
reconnect timeout and heartbeat interval; if the current handle is OPEN
or CONNECTING, call close(4000, "New connection attempt") on it; then
create the new WebSocket handle and store it in socketRef. The returned
action list records the order of these effects. -/
def connectWebSocket (newId : Nat) (st : ManagerState) : ManagerState × List ConnAction :=
  let st1 := { st with reconnectTimer := none, heartbeatTimer := false }
  match st1.socket with
  | some h =>
      if h.readyState == WebSocketState.OPEN || h.readyState == WebSocketState.CONNECTING then
        ({ st1 with socket := some { id := newId, readyState := WebSocketState.CONNECTING } },
         clearActs st ++ [ConnAction.closeHandle h.id SUPERSEDED_CODE, ConnAction.createHandle newId])
      else
        ({ st1 with socket := some { id := newId, readyState := WebSocketState.CONNECTING } },
         clearActs st ++ [ConnAction.createHandle newId])
  | none =>
      ({ st1 with socket := some { id := newId, readyState := WebSocketState.CONNECTING } },
       clearActs st ++ [ConnAction.createHandle newId])

/-- Firing of the scheduled reconnect timeout:
setReconnectAttempts(prev => prev + 1); connectWebSocket(). -/
def reconnectFire (newId : Nat) (st : ManagerState) : ManagerState × List ConnAction :=
  connectWebSocket newId
    { st with reconnectAttempts := st.reconnectAttempts + 1, reconnectTimer := none }

/-- Backoff delays scheduled along a timer-driven retry chain. The
reconnect timeout callback re-invokes the very connectWebSocket closure
in whose body it was scheduled (a plain self-reference), so the socket
it creates again gets handlers that captured the same counter value:
each close in the chain runs oncloseCaptured with the unchanged capture,
and the firing timeout (reconnectFire) increments only the live counter.
Returns the scheduled delays in order, the chain ending at a non-retry
code. -/
def chainDelays (captured : Nat) : List Nat → ManagerState → List Nat
  | [], _ => []
  | code :: codes, st =>
    let st1 := oncloseCaptured captured code st
    match st1.reconnectTimer with
    | some d => d :: chainDelays captured codes (reconnectFire 0 st1).1
    | none => []

/-! ## Message handlers (onmessage) -/

/-- Result of an onmessage call: lastPongRef afterwards, the message
history afterwards, the messages passed to the onMessage observer
callback during the call (in order), and any close call issued (the
handlers never issue one). -/
structure MsgResult where
  lastPongAt : Nat
  history : List JsValue
  forwarded : List JsValue
  closeIssued : Option Nat
  deriving DecidableEq, Repr

/-- onmessage of the App variant. JSON.parse failure is caught and the
raw text kept as the message value. The pong guard is
(message && message.type === "pong" || message.type === "connection");
then a type === "log" message is appended to the history and forwarded to
the observer; type === "order" and type === "error" messages are appended
to the history (plus a toast) but not forwarded; every other message
value falls through all branches untouched. -/
def onmessageApp (now lastPongAt : Nat) (hist : List JsValue) (ev : InboundEvent) : MsgResult :=
  let message : JsValue :=
    match ev with
    | .parsed v => v
    | .unparseable raw => .str raw
  if (jsTruthy message && (msgType message == some "pong")) ||
     (msgType message == some "connection") then
    { lastPongAt := now, history := hist, forwarded := [], closeIssued := none }
  else if msgType message == some "log" then
    { lastPongAt := lastPongAt, history := pushMessage message hist
      forwarded := [message], closeIssued := none }
  else if msgType message == some "order" then
    { lastPongAt := lastPongAt, history := pushMessage message hist
      forwarded := [], closeIssued := none }
  else if msgType message == some "error" then
    { lastPongAt := lastPongAt, history := pushMessage message hist
      forwarded := [], closeIssued := none }
  else
    { lastPongAt := lastPongAt, history := hist, forwarded := [], closeIssued := none }

/-- onmessage of the Part001 variant. JSON.parse failure is caught by the
outer try/catch and only logged. A pong or connection tagged message
stamps lastPongRef and returns; every other parsed message is appended to
the history and forwarded to the observer. -/
def onmessagePart001 (now lastPongAt : Nat) (hist : List JsValue) (ev : InboundEvent) :
    MsgResult :=
  match ev with
  | .unparseable _ =>
      { lastPongAt := lastPongAt, history := hist, forwarded := [], closeIssued := none }
  | .parsed message =>
    if (msgType message == some "pong") || (msgType message == some "connection") then
      { lastPongAt := now, history := hist, forwarded := [], closeIssued := none }
    else
      { lastPongAt := lastPongAt, history := pushMessage message hist
        forwarded := [message], closeIssued := none }

/-! ## Liveness prober (useBotStatus.checkStatus, src/unnamed/part_000) -/

/-- The status snapshot produced by checkStatus. -/
structure BotStatus where
  status : String
  message : String
  isOnline : Bool
  deriving DecidableEq, Repr

/-- Outcome of the fetch of GET /trading/status: response.ok with a parsed
body, a non-ok response with its HTTP status code, or a network failure
whose error carries a message. -/
inductive FetchResult where
  | ok (body : BotStatus)
  | httpError (code : Nat)
  | networkError (msg : String)
  deriving DecidableEq, Repr

/-- The message of the Error thrown on a non-ok response:
throw new Error(backtick-template "HTTP error! status: " + status). -/
def httpErrorMessage (code : Nat) : String :=
  "HTTP error! status: " ++ toString code

/-- Whether the first character list starts the second. -/
def charsStartWith : List Char → List Char → Bool
  | [], _ => true
  | _ :: _, [] => false
  | a :: as, b :: bs => a == b && charsStartWith as bs

/-- Whether the first character list occurs contiguously in the second. -/
def charsOccurIn (needle : List Char) : List Char → Bool
  | [] => charsStartWith needle []
  | b :: bs => charsStartWith needle (b :: bs) || charsOccurIn needle bs

/-- error.message.includes(needle): substring test of JS String.includes. -/
def jsIncludes (hay needle : String) : Bool :=
  charsOccurIn needle.toList hay.toList

/-- The not-found classification string of the catch branch (Korean for
"API endpoint not found"). -/
def NOT_FOUND_MSG : String := "API 엔드포인트를 찾을 수 없습니다"

/-- The generic classification string of the catch branch (Korean for
"connection error"). -/
def CONN_ERROR_MSG : String := "연결 오류"

/-- The catch-branch classifier:
error.message.includes("404") ? NOT_FOUND_MSG : CONN_ERROR_MSG. -/
def classifyError (m : String) : String :=
  if jsIncludes m "404" then NOT_FOUND_MSG else CONN_ERROR_MSG

/-- The error message reaching the catch branch, when the fetch failed. -/
def failureMessage : FetchResult → Option String
  | .ok _ => none
  | .httpError code => some (httpErrorMessage code)
  | .networkError m => some m

/-- checkStatus: on response.ok, the parsed body merged with
isOnline := true; otherwise the thrown or raised error is caught and an
offline snapshot with the classified message is returned - the function
never propagates the failure. -/
def checkStatus : FetchResult → BotStatus
  | .ok body => { body with isOnline := true }
  | .httpError code =>
      { status := "offline", message := classifyError (httpErrorMessage code), isOnline := false }
  | .networkError m =>
      { status := "offline", message := classifyError m, isOnline := false }

/-! ## Concrete states used to evaluate the handlers -/

/-- A concrete manager state holding an Open handle with a fresh pong
stamp at time 0 and an active heartbeat interval. -/
def stOpen : ManagerState :=
  { socket := some { id := 1, readyState := WebSocketState.OPEN }
    reconnectTimer := none
    heartbeatTimer := true
    reconnectAttempts := 0
    lastPongAt := 0
    isConnected := true }

/-! ## Helper lemmas -/

theorem runCloses_cons (c : Nat) (cs : List Nat) (st : ManagerState) :
    runCloses (c :: cs) st = runCloses cs (onclose c st) := rfl

theorem onclose_reconnectTimer_of_nonretry (c : Nat) (st : ManagerState)
    (hc : c = 1000 ∨ c = 1005 ∨ c = 4000) :
    (onclose c st).reconnectTimer = st.reconnectTimer := by
  have hsr : shouldReconnect c = false := by
    rcases hc with h | h | h <;> subst h <;> decide
  simp [onclose, oncloseCaptured, hsr]

theorem clearActs_cases (st : ManagerState) :
    ∀ a ∈ clearActs st,
      a = ConnAction.clearReconnectTimer ∨ a = ConnAction.clearHeartbeat := by
  intro a ha
  unfold clearActs at ha
  rcases List.mem_append.mp ha with h | h
  · left
    revert h
    split <;> simp_all
  · right
    revert h
    split <;> simp_all

/-! ## Claim theorems -/

/-- Claim C1 (code-bug evidence): in the App variant a heartbeat timeout
(no pong-equivalent for more than 30 s at a heartbeat check on an Open
handle) issues a close with PONG_TIMEOUT_CODE = 4000; that code equals the
superseded code (so it is not distinguishing), fails the retry guard of
onclose, and the resulting close schedules no reconnection - contradicting
the claim that this closure always causes exactly one reconnection
attempt. The Part001 variant closes with 1006, which does pass the retry
guard, matching the claimed behaviour. -/
theorem c1_heartbeat_timeout_close_not_retried :
    (checkConnectionApp 30001 stOpen).closeIssued = some PONG_TIMEOUT_CODE ∧
    PONG_TIMEOUT_CODE = SUPERSEDED_CODE ∧
    shouldReconnect PONG_TIMEOUT_CODE = false ∧
    (onclose PONG_TIMEOUT_CODE (checkConnectionApp 30001 stOpen).state).reconnectTimer
      = none ∧
    (checkConnectionPart001 30001 stOpen).closeIssued = some PART001_TIMEOUT_CODE ∧
    shouldReconnect PART001_TIMEOUT_CODE = true := by
  decide

/-- Claim C2: for every sequence of close events whose codes all lie in
the non-retry set 1000 (intentional), 1005 (no status), 4000 (superseded),
starting from a state with no pending reconnect timer, no reconnection
timer is ever scheduled. -/
theorem c2_non_retry_codes_never_schedule (codes : List Nat) (st : ManagerState)
    (hstart : st.reconnectTimer = none)
    (hcodes : ∀ c ∈ codes, c = 1000 ∨ c = 1005 ∨ c = 4000) :
    (runCloses codes st).reconnectTimer = none := by
  induction codes generalizing st with
  | nil => simpa [runCloses] using hstart
  | cons c cs ih =>
    rw [runCloses_cons]
    refine ih (onclose c st) ?_ (fun d hd => hcodes d (List.mem_cons_of_mem c hd))
    rw [onclose_reconnectTimer_of_nonretry c st (hcodes c (List.mem_cons_self c cs))]
    exact hstart

/-- Witness for C2 at the concrete close sequence 1000, 4000, 1005. -/
theorem c2_non_retry_codes_never_schedule_witness :
    stOpen.reconnectTimer = none ∧
    (runCloses [1000, 4000, 1005] stOpen).reconnectTimer = none :=
  ⟨rfl, c2_non_retry_codes_never_schedule [1000, 4000, 1005] stOpen rfl (by decide)⟩

/-- Claim C3 (code-bug evidence): along a timer-driven retry chain the
reconnect timeout callback re-invokes the connectWebSocket closure it
was scheduled in, so every onclose handler in the chain reads the
pre-chain captured counter: three consecutive closes with code 1006
after an open with counter 0 schedule delays 1000, 1000, 1000 ms, while
the claimed formula min(1000 * 2 ^ attemptCount, 30000), with
attemptCount the number of scheduled retry attempts since the last
successful open, demands 1000, 2000, 4000. The counter bookkeeping
itself matches the claim - reset to 0 by onopen, incremented once per
fired scheduled attempt - but the delay formula never reads the live
counter along the chain, defeating the progressive backoff the source
comment announces. -/
theorem c3_stale_capture_keeps_delay_constant :
    chainDelays 0 [1006, 1006, 1006] (onopen 0 stOpen) = [1000, 1000, 1000] ∧
    [reconnectDelay 0, reconnectDelay 1, reconnectDelay 2] = [1000, 2000, 4000] ∧
    chainDelays 0 [1006, 1006, 1006] (onopen 0 stOpen)
      ≠ [reconnectDelay 0, reconnectDelay 1, reconnectDelay 2] ∧
    (onopen 0 stOpen).reconnectAttempts = 0 ∧
    ((reconnectFire 0 (oncloseCaptured 0 1006 (onopen 0 stOpen))).1).reconnectAttempts
      = 1 := by
  decide

/-- Claim C4 (code-bug evidence): in the App variant only log-tagged
messages reach the observer callback; an order message received while
Open is appended to the history but never forwarded, and a
position_update message is neither appended nor forwarded - even though
the dashboard caller handles position_update through that callback and
the Part001 variant forwards every accepted message exactly once. No
close is issued by the handler. -/
theorem c4_app_variant_forwards_only_log :
    (onmessageApp 5 0 [] (.parsed (.obj "order" "side buy amount 1 symbol BTC"))).forwarded
      = [] ∧
    (onmessageApp 5 0 [] (.parsed (.obj "order" "side buy amount 1 symbol BTC"))).history
      = [.obj "order" "side buy amount 1 symbol BTC"] ∧
    (onmessageApp 5 0 [] (.parsed (.obj "position_update" "d"))).forwarded = [] ∧
    (onmessageApp 5 0 [] (.parsed (.obj "position_update" "d"))).history = [] ∧
    (onmessageApp 5 0 [] (.parsed (.obj "log" "info"))).forwarded = [.obj "log" "info"] ∧
    (onmessagePart001 5 0 [] (.parsed (.obj "order" "side buy amount 1 symbol BTC"))).forwarded
      = [.obj "order" "side buy amount 1 symbol BTC"] ∧
    (onmessageApp 5 0 [] (.parsed (.obj "order" "side buy amount 1 symbol BTC"))).closeIssued
      = none := by
  decide

/-- Claim C5 counterexample: an inbound payload on which parsing fails
(here the raw text hello) is not forwarded to the observer in either
variant, refuting the claim that it is forwarded as-is. -/
theorem c5_unparseable_payload_not_forwarded_cex :
    (onmessageApp 5 0 [] (.unparseable "hello")).forwarded = [] ∧
    (onmessageApp 5 0 [] (.unparseable "hello")).forwarded ≠ [JsValue.str "hello"] ∧
    (onmessagePart001 5 0 [] (.unparseable "hello")).forwarded = [] := by
  decide

/-- Claim C5 (amended): a payload that fails to parse is kept locally as
opaque text (App variant) or merely logged (Part001 variant); it is
neither forwarded to the observer nor appended to the history, and the
failure never drops the connection - lastPongAt and the history are
unchanged and no close is initiated. -/
theorem c5_unparseable_payload_discarded_connection_kept
    (now lastPong : Nat) (hist : List JsValue) (raw : String) :
    onmessageApp now lastPong hist (.unparseable raw) =
      { lastPongAt := lastPong, history := hist, forwarded := [], closeIssued := none } ∧
    onmessagePart001 now lastPong hist (.unparseable raw) =
      { lastPongAt := lastPong, history := hist, forwarded := [], closeIssued := none } := by
  constructor
  · simp [onmessageApp, msgType]
  · rfl

/-- Claim C6: connectWebSocket first cancels any pending reconnect timer
and heartbeat interval (the only actions preceding the close), then
closes a previous handle that is OPEN or CONNECTING with the superseded
code 4000 before creating the new handle; afterwards no timer is pending,
the superseded handle is CLOSING (hence not Open) and the new handle
starts CONNECTING, so two handles are never concurrently Open. -/
theorem c6_supersede_before_create (newId : Nat) (st : ManagerState) (h : Handle)
    (hs : st.socket = some h)
    (hrs : h.readyState = WebSocketState.OPEN ∨ h.readyState = WebSocketState.CONNECTING) :
    (connectWebSocket newId st).2 =
      clearActs st ++
        [ConnAction.closeHandle h.id SUPERSEDED_CODE, ConnAction.createHandle newId] ∧
    (∀ a ∈ clearActs st,
        a = ConnAction.clearReconnectTimer ∨ a = ConnAction.clearHeartbeat) ∧
    (connectWebSocket newId st).1.reconnectTimer = none ∧
    (connectWebSocket newId st).1.heartbeatTimer = false ∧
    (connectWebSocket newId st).1.socket =
      some { id := newId, readyState := WebSocketState.CONNECTING } ∧
    (Handle.closeCall h).readyState = WebSocketState.CLOSING := by
  have hguard : (h.readyState == WebSocketState.OPEN
      || h.readyState == WebSocketState.CONNECTING) = true := by
    rcases hrs with h1 | h1 <;> simp [h1]
  refine ⟨?_, clearActs_cases st, ?_, ?_, ?_, ?_⟩
  · simp [connectWebSocket, hs, hguard]
  · simp [connectWebSocket, hs, hguard]
  · simp [connectWebSocket, hs, hguard]
  · simp [connectWebSocket, hs, hguard]
  · simp [Handle.closeCall, hguard]

/-- Witness for C6: superseding the concrete Open handle of stOpen with a
new handle 2. -/
theorem c6_supersede_before_create_witness :
    (connectWebSocket 2 stOpen).2 =
      clearActs stOpen ++
        [ConnAction.closeHandle 1 SUPERSEDED_CODE, ConnAction.createHandle 2] ∧
    (∀ a ∈ clearActs stOpen,
        a = ConnAction.clearReconnectTimer ∨ a = ConnAction.clearHeartbeat) ∧
    (connectWebSocket 2 stOpen).1.reconnectTimer = none ∧
    (connectWebSocket 2 stOpen).1.heartbeatTimer = false ∧
    (connectWebSocket 2 stOpen).1.socket =
      some { id := 2, readyState := WebSocketState.CONNECTING } ∧
    (Handle.closeCall { id := 1, readyState := WebSocketState.OPEN }).readyState
      = WebSocketState.CLOSING :=
  c6_supersede_before_create 2 stOpen { id := 1, readyState := WebSocketState.OPEN }
    rfl (Or.inl rfl)

/-- Claim C7: every insertion into the message history prepends the new
message (newest first), the result never exceeds 100 entries, and when
the history already holds 100 entries the oldest (last) entry is evicted;
the log branch of the App onmessage handler performs exactly this
insertion. -/
theorem c7_history_bounded_newest_first (m : JsValue) (prev : List JsValue) :
    (pushMessage m prev).length ≤ 100 ∧
    (pushMessage m prev).head? = some m ∧
    (prev.length = 100 → pushMessage m prev = m :: prev.dropLast) ∧
    (∀ now lastPong payload,
      (onmessageApp now lastPong prev (.parsed (.obj "log" payload))).history
        = pushMessage (.obj "log" payload) prev) := by
  refine ⟨?_, ?_, ?_, ?_⟩
  · simp [pushMessage]
  · rw [pushMessage, show (100 : Nat) = 99 + 1 from rfl, List.take_succ_cons]
    rfl
  · intro hlen
    rw [pushMessage, show (100 : Nat) = 99 + 1 from rfl, List.take_succ_cons,
      List.dropLast_eq_take, hlen]
  · intro now lastPong payload
    simp [onmessageApp, msgType, jsTruthy]

/-- Witness for C7 with a concrete 100-entry history. -/
theorem c7_history_bounded_newest_first_witness :
    pushMessage (JsValue.str "x") (List.replicate 100 (JsValue.str "y"))
      = JsValue.str "x" :: (List.replicate 100 (JsValue.str "y")).dropLast :=
  (c7_history_bounded_newest_first (JsValue.str "x")
      (List.replicate 100 (JsValue.str "y"))).2.2.1 (by decide)

/-- Claim C8: an inbound message tagged pong, or tagged connection (the
acknowledgement tag the spec calls connectionAck), stamps lastPongAt with
the current time and is terminal in both variants: the history is
untouched, nothing is forwarded to the observer, and no close is
issued. -/
theorem c8_pong_connection_terminal (now lastPong : Nat) (hist : List JsValue)
    (payload t : String) (ht : t = "pong" ∨ t = "connection") :
    onmessageApp now lastPong hist (.parsed (.obj t payload)) =
      { lastPongAt := now, history := hist, forwarded := [], closeIssued := none } ∧
    onmessagePart001 now lastPong hist (.parsed (.obj t payload)) =
      { lastPongAt := now, history := hist, forwarded := [], closeIssued := none } := by
  rcases ht with h | h <;> subst h <;> exact ⟨rfl, rfl⟩

/-- Witness for C8 at a concrete pong message. -/
theorem c8_pong_connection_terminal_witness :
    onmessageApp 7 0 [] (.parsed (.obj "pong" "")) =
      { lastPongAt := 7, history := [], forwarded := [], closeIssued := none } ∧
    onmessagePart001 7 0 [] (.parsed (.obj "pong" "")) =
      { lastPongAt := 7, history := [], forwarded := [], closeIssued := none } :=
  c8_pong_connection_terminal 7 0 [] "" "pong" (Or.inl rfl)

/-- Claim C9: whenever the fetch of the prober fails (non-success response
or network failure), checkStatus returns - never throws - an offline
snapshot with isOnline false whose message is the not-found classification
exactly when the error message contains 404, and the connection-error
classification otherwise. -/
theorem c9_probe_failure_classified (res : FetchResult) (m : String)
    (hfail : failureMessage res = some m) :
    checkStatus res =
      { status := "offline", message := classifyError m, isOnline := false } ∧
    (jsIncludes m "404" = true → (checkStatus res).message = NOT_FOUND_MSG) ∧
    (jsIncludes m "404" = false → (checkStatus res).message = CONN_ERROR_MSG) := by
  rcases res with body | code | msg
  · simp [failureMessage] at hfail
  · simp only [failureMessage, Option.some.injEq] at hfail
    subst hfail
    refine ⟨rfl, ?_, ?_⟩ <;> intro h <;> simp [checkStatus, classifyError, h]
  · simp only [failureMessage, Option.some.injEq] at hfail
    subst hfail
    refine ⟨rfl, ?_, ?_⟩ <;> intro h <;> simp [checkStatus, classifyError, h]

/-- Witness for C9 at a 404 response. -/
theorem c9_probe_failure_classified_witness :
    checkStatus (FetchResult.httpError 404) =
      { status := "offline", message := classifyError (httpErrorMessage 404)
        isOnline := false } ∧
    classifyError (httpErrorMessage 404) = NOT_FOUND_MSG :=
  ⟨(c9_probe_failure_classified (FetchResult.httpError 404) (httpErrorMessage 404) rfl).1,
   by decide⟩

/-- Claim C10: on a heartbeat tick, sendHeartbeat attempts the ping send
exactly when a handle exists and its readyState is OPEN, and in every
case - including a synchronously throwing send, which is caught - the
manager state is returned unchanged and no close is issued. -/
theorem c10_heartbeat_send_guarded_harmless (outcome : SendOutcome) (st : ManagerState) :
    (sendHeartbeat outcome st).state = st ∧
    (sendHeartbeat outcome st).closeIssued = none ∧
    (sendHeartbeat outcome st).pingSent = socketIsOpen st := by
  unfold sendHeartbeat socketIsOpen
  cases st.socket
  · exact ⟨rfl, rfl, rfl⟩
  · rename_i h
    by_cases hrs : (h.readyState == WebSocketState.OPEN) = true
    · simp only [hrs, if_pos]
      cases outcome <;> exact ⟨rfl, rfl, rfl⟩
    · simp only [Bool.not_eq_true] at hrs
      simp [hrs]
